import Mathlib

/-!
# Heart-rate sensor: GAP event handling of `projects/hr_sensor/app/main.c`

A shallow embedding of `user_ble_gap_event`, `user_advertise_init` and
`user_ble_sync_callback`.

* The file-scope variables `led_status` (a `volatile uint32_t`) and
  `ble_addr_type` (a `uint8_t`) are fields of `State`.  The state that the
  heart-rate service keeps (in `hr_svr.c`, which is not among the sources) is
  the field `hr`, of an arbitrary type.
* Every call that leaves `main.c`, and every store to the volatile
  `led_status`, is recorded in program order as an `Effect`.
* Macros that come from headers outside the source tree are the fields of
  `Headers`; the return codes of the host stack are the fields of `HostReply`.
* The functions called from `main.c` (`printf`, `nrf_gpio_pin_set`, the host
  stack, `hr_service_subscribe_handler`) are taken not to store to
  `led_status`; `ble_addr_type` is `static` and out of their reach.
* `struct ble_gap_event` is a tagged union; `ble_gap_event` has one
  constructor for each `case` label of the handler's `switch`, and `other`
  for every type that reaches `default`.
-/

namespace HrSensor

/-! ## Data -/

/-- Macros used by `main.c` whose definitions are in headers that are not among
the sources (`board.h`, `host/ble_hs.h`, `ble_appearance_id.h`, `assert.h`). -/
structure Headers where
  BOARD_LED2_LIGHT : Nat
  BOARD_LED3_LIGHT : Nat
  LED_2 : Nat
  LED_3 : Nat
  BLE_HS_ADV_F_BREDR_UNSUP : Nat
  BLE_HS_ADV_F_DISC_GEN : Nat
  BLE_HS_ADV_TX_PWR_LVL_AUTO : Int
  BLE_GAP_CONN_MODE_UND : Nat
  BLE_GAP_DISC_MODE_GEN : Nat
  BLE_HS_FOREVER : Int
  BLE_APPEARANCE_HEART_RATE_SENSOR_HEART_RATE_BELT : Nat
  /-- Whether `assert` is compiled out. -/
  NDEBUG : Bool
deriving DecidableEq, Repr

/-- The members of `struct ble_hs_adv_fields` that `user_advertise_init`
assigns; every other member is zero after the `memset`. -/
structure ble_hs_adv_fields where
  flags : Nat
  tx_pwr_lvl_is_present : Nat
  tx_pwr_lvl : Int
  name : String
  name_len : Nat
  name_is_complete : Nat
  appearance_is_present : Nat
  appearance : Nat
deriving DecidableEq, Repr

/-- The members of `struct ble_gap_adv_params` that `user_advertise_init`
assigns; every other member is zero after the `memset`. -/
structure ble_gap_adv_params where
  conn_mode : Nat
  disc_mode : Nat
deriving DecidableEq, Repr

/-- Payload of a subscribe event (`event->subscribe`). -/
structure ble_gap_subscribe where
  conn_handle : Nat
  attr_handle : Nat
  reason : Nat
  prev_notify : Bool
  cur_notify : Bool
  prev_indicate : Bool
  cur_indicate : Bool
deriving DecidableEq, Repr

/-- The event passed to the GAP callback, by the value of `event->type`. -/
inductive ble_gap_event where
  | connect (status : Int) (conn_handle : Nat)
  | disconnect (reason : Int)
  | adv_complete
  | subscribe (p : ble_gap_subscribe)
  | other (type : Nat)
deriving DecidableEq, Repr

/-- The lines written with `printf`, with their arguments. -/
inductive LogLine where
  | connect (status : Int) (conn_handle : Nat)
  | disconnect (reason : Int)
  | adv_end
  | adv_start (conn_mode disc_mode : Nat)
deriving DecidableEq, Repr

/-- What `main.c` does to the outside: calls into other modules (with the
return code the callee gave, where there is one) and stores to the volatile
`led_status`. -/
inductive Effect where
  | printf (line : LogLine)
  | ble_gap_adv_set_fields (fields : ble_hs_adv_fields) (rc : Int)
  | ble_gap_adv_start (own_addr_type : Nat) (duration_ms : Int)
      (adv_params : ble_gap_adv_params) (rc : Int)
  | nrf_gpio_pin_set (pin : Nat)
  | led_status_write (value : Nat)
  | hr_service_subscribe_handler (event : ble_gap_event)
  | ble_hs_id_infer_auto (privacy : Nat) (rc : Int)
  | assert_failed
deriving DecidableEq, Repr

/-- Return codes of the two host-stack calls made by `user_advertise_init`. -/
structure HostReply where
  adv_set_fields_rc : Int
  adv_start_rc : Int
deriving DecidableEq, Repr

/-- The variables the handler reads and writes. -/
structure State (σ : Type) where
  led_status : Nat
  ble_addr_type : Nat
  hr : σ

/-- Result of one call of `user_ble_gap_event`. -/
structure Outcome (σ : Type) where
  ret : Int
  state : State σ
  effects : List Effect

/-- Result of one call of `user_ble_sync_callback`; `aborted` is set when the
assertion failed. -/
structure SyncOutcome (σ : Type) where
  aborted : Bool
  state : State σ
  effects : List Effect

/-! ## 32-bit unsigned arithmetic -/

/-- The C statement `x &= ~m` on a `uint32_t` variable. -/
def and_not_assign (x m : Nat) : Nat :=
  x &&& ((2 ^ 32 - 1) ^^^ (m % 2 ^ 32))

/-- The C statement `x |= m` on a `uint32_t` variable. -/
def or_assign (x m : Nat) : Nat :=
  (x ||| m) % 2 ^ 32

/-! ## The code -/

/-- The string `user_ble_device_name`. -/
def user_ble_device_name : String := "nimble_hr"

/-- The variable `user_ble_appearance`, a `uint16_t`. -/
def user_ble_appearance (h : Headers) : Nat :=
  h.BLE_APPEARANCE_HEART_RATE_SENSOR_HEART_RATE_BELT % 2 ^ 16

/-- The record `fields` as `user_advertise_init` passes it on. -/
def adv_fields (h : Headers) : ble_hs_adv_fields :=
  { flags := h.BLE_HS_ADV_F_BREDR_UNSUP ||| h.BLE_HS_ADV_F_DISC_GEN
    tx_pwr_lvl_is_present := 1
    tx_pwr_lvl := h.BLE_HS_ADV_TX_PWR_LVL_AUTO
    name := user_ble_device_name
    name_len := user_ble_device_name.length
    name_is_complete := 1
    appearance_is_present := 1
    appearance := user_ble_appearance h }

/-- The record `adv_params` as `user_advertise_init` passes it on. -/
def adv_params (h : Headers) : ble_gap_adv_params :=
  { conn_mode := h.BLE_GAP_CONN_MODE_UND
    disc_mode := h.BLE_GAP_DISC_MODE_GEN }

/-- The function `user_advertise_init`: it changes no variable of `main.c`, so
its result is the list of its effects. Both return codes are dropped. -/
def user_advertise_init {σ : Type} (h : Headers) (r : HostReply) (s : State σ) :
    List Effect :=
  [ Effect.ble_gap_adv_set_fields (adv_fields h) r.adv_set_fields_rc,
    Effect.printf (LogLine.adv_start (adv_params h).conn_mode (adv_params h).disc_mode),
    Effect.ble_gap_adv_start s.ble_addr_type h.BLE_HS_FOREVER (adv_params h)
      r.adv_start_rc ]

/-- The function `user_ble_gap_event`. `sub` is `hr_service_subscribe_handler`
(defined in `hr_svr.c`), acting on the state of the heart-rate service. The
parameter `arg` is not used by the handler except to pass it on to `sub`, and
is always `NULL` (the last argument of `ble_gap_adv_start`). -/
def user_ble_gap_event {σ : Type} (h : Headers) (sub : ble_gap_event → σ → σ)
    (r : HostReply) (event : ble_gap_event) (s : State σ) : Outcome σ :=
  match event with
  | ble_gap_event.connect status conn_handle =>
    let adv := if status ≠ 0 then user_advertise_init h r s else []
    let v1 := and_not_assign s.led_status h.BOARD_LED3_LIGHT
    let v2 := or_assign v1 h.BOARD_LED2_LIGHT
    { ret := 0
      state := { s with led_status := v2 }
      effects := [Effect.printf (LogLine.connect status conn_handle)] ++ adv ++
        [Effect.nrf_gpio_pin_set h.LED_3, Effect.led_status_write v1,
         Effect.led_status_write v2] }
  | ble_gap_event.disconnect reason =>
    let v1 := and_not_assign s.led_status h.BOARD_LED2_LIGHT
    let v2 := or_assign v1 h.BOARD_LED3_LIGHT
    { ret := 0
      state := { s with led_status := v2 }
      effects := [Effect.printf (LogLine.disconnect reason)] ++
        user_advertise_init h r s ++
        [Effect.nrf_gpio_pin_set h.LED_2, Effect.led_status_write v1,
         Effect.led_status_write v2] }
  | ble_gap_event.adv_complete =>
    { ret := 0
      state := s
      effects := [Effect.printf LogLine.adv_end] ++ user_advertise_init h r s }
  | ble_gap_event.subscribe p =>
    { ret := 0
      state := { s with hr := sub (ble_gap_event.subscribe p) s.hr }
      effects := [Effect.hr_service_subscribe_handler (ble_gap_event.subscribe p)] }
  | ble_gap_event.other _ =>
    { ret := 0, state := s, effects := [] }

/-- The function `user_ble_sync_callback`. `rc` is what `ble_hs_id_infer_auto`
returns and `addr` what it leaves in `ble_addr_type`. -/
def user_ble_sync_callback {σ : Type} (h : Headers) (rc : Int) (addr : Nat)
    (r : HostReply) (s : State σ) : SyncOutcome σ :=
  let s1 : State σ := { s with ble_addr_type := addr % 2 ^ 8 }
  if rc ≠ 0 ∧ h.NDEBUG = false then
    { aborted := true
      state := s1
      effects := [Effect.ble_hs_id_infer_auto 0 rc, Effect.assert_failed] }
  else
    { aborted := false
      state := s1
      effects := [Effect.ble_hs_id_infer_auto 0 rc] ++ user_advertise_init h r s1 }

/-- The handler applied to a sequence of events, each with the return codes the
host stack gives while it is handled; yields the final state and all effects in
order. -/
def run {σ : Type} (h : Headers) (sub : ble_gap_event → σ → σ) :
    List (ble_gap_event × HostReply) → State σ → State σ × List Effect
  | [], s => (s, [])
  | (e, r) :: rest, s =>
    let o := user_ble_gap_event h sub r e s
    let t := run h sub rest o.state
    (t.1, o.effects ++ t.2)

/-! ## Observations used in the statements -/

/-- Whether an effect is an advertise-start command. -/
def isAdvStart : Effect → Bool
  | Effect.ble_gap_adv_start _ _ _ _ => true
  | _ => false

/-- Whether an effect is a call of the subscription handler. -/
def isSubscribeCall : Effect → Bool
  | Effect.hr_service_subscribe_handler _ => true
  | _ => false

/-- Whether an effect is a log line. -/
def isLog : Effect → Bool
  | Effect.printf _ => true
  | _ => false

/-- Number of advertise-start commands in a list of effects. -/
def advStartCount (l : List Effect) : Nat := (l.filter isAdvStart).length

/-- Number of calls of the subscription handler in a list of effects. -/
def subscribeCallCount (l : List Effect) : Nat := (l.filter isSubscribeCall).length

/-- The effects without the log lines. -/
def withoutLog (l : List Effect) : List Effect := l.filter (fun e => !isLog e)

/-- All bits of the mask `m` are set in `v`. -/
def bitsSet (v m : Nat) : Prop := v &&& m = m

/-- No bit of the mask `m` is set in `v`. -/
def bitsClear (v m : Nat) : Prop := v &&& m = 0

instance (v m : Nat) : Decidable (bitsSet v m) := by
  unfold bitsSet; infer_instance

instance (v m : Nat) : Decidable (bitsClear v m) := by
  unfold bitsClear; infer_instance

/-- The indicator shows the Connected pattern. -/
def ShowsConnected (h : Headers) (v : Nat) : Prop :=
  bitsSet v h.BOARD_LED2_LIGHT ∧ bitsClear v h.BOARD_LED3_LIGHT

/-- The indicator shows the Advertising pattern. -/
def ShowsAdvertising (h : Headers) (v : Nat) : Prop :=
  bitsSet v h.BOARD_LED3_LIGHT ∧ bitsClear v h.BOARD_LED2_LIGHT

instance (h : Headers) (v : Nat) : Decidable (ShowsConnected h v) := by
  unfold ShowsConnected; infer_instance

instance (h : Headers) (v : Nat) : Decidable (ShowsAdvertising h v) := by
  unfold ShowsAdvertising; infer_instance

/-- Exactly one of the two indicator patterns is shown. -/
def ExactlyOnePattern (h : Headers) (v : Nat) : Prop :=
  (ShowsConnected h v ∧ ¬ ShowsAdvertising h v) ∨
  (ShowsAdvertising h v ∧ ¬ ShowsConnected h v)

instance (h : Headers) (v : Nat) : Decidable (ExactlyOnePattern h v) := by
  unfold ExactlyOnePattern; infer_instance

/-- The two indicator masks are 32-bit values, non-zero and disjoint. -/
def MasksOk (h : Headers) : Prop :=
  h.BOARD_LED2_LIGHT < 2 ^ 32 ∧ h.BOARD_LED3_LIGHT < 2 ^ 32 ∧
  h.BOARD_LED2_LIGHT ≠ 0 ∧ h.BOARD_LED3_LIGHT ≠ 0 ∧
  h.BOARD_LED2_LIGHT &&& h.BOARD_LED3_LIGHT = 0

instance (h : Headers) : Decidable (MasksOk h) := by
  unfold MasksOk; infer_instance

/-- Whether an event is a connect or a disconnect event. -/
def changesIndicator : ble_gap_event → Bool
  | ble_gap_event.connect _ _ => true
  | ble_gap_event.disconnect _ => true
  | _ => false

/-- Whether an event is a subscribe event. -/
def isSubscribe : ble_gap_event → Bool
  | ble_gap_event.subscribe _ => true
  | _ => false

/-- Whether an event is one of connect-with-failure-status, disconnect and
advertising-complete. -/
def resumesAdvertising : ble_gap_event → Bool
  | ble_gap_event.connect status _ => decide (status ≠ 0)
  | ble_gap_event.disconnect _ => true
  | ble_gap_event.adv_complete => true
  | _ => false

/-- Sample header values for the concrete evaluations: LED2 is bit 1, LED3 is
bit 2, assertions are compiled in. -/
def sampleHeaders : Headers :=
  { BOARD_LED2_LIGHT := 2
    BOARD_LED3_LIGHT := 4
    LED_2 := 18
    LED_3 := 19
    BLE_HS_ADV_F_BREDR_UNSUP := 4
    BLE_HS_ADV_F_DISC_GEN := 2
    BLE_HS_ADV_TX_PWR_LVL_AUTO := -128
    BLE_GAP_CONN_MODE_UND := 2
    BLE_GAP_DISC_MODE_GEN := 2
    BLE_HS_FOREVER := 2147483647
    BLE_APPEARANCE_HEART_RATE_SENSOR_HEART_RATE_BELT := 833
    NDEBUG := false }

/-- Sample return codes: both host-stack calls succeed. -/
def okReply : HostReply := { adv_set_fields_rc := 0, adv_start_rc := 0 }

/-- Modelled from the spec: `hr_service_subscribe_handler` is defined in
`hr_svr.c`, which is not among the sources. The spec says that a
subscription-changed event "updates SubscriptionState" and that `set(enabled)`
"updates the flag"; the flag is the state of the heart-rate service. -/
def hr_service_subscribe_handler : ble_gap_event → Bool → Bool
  | ble_gap_event.subscribe p, _ => p.cur_notify
  | _, flag => flag

/-- The variables when the host stack reports that it is synchronised:
`led_status` holds `led0` (its definition and initial value are outside
`main.c`), `ble_addr_type` is zero-initialised, the subscription flag is off. -/
def bootState (led0 : Nat) : State Bool :=
  { led_status := led0, ble_addr_type := 0, hr := false }

/-! ## Bit-level facts about the two assignments -/

theorem testBit_and_not_assign (x m i : Nat) :
    (and_not_assign x m).testBit i =
      (x.testBit i && (decide (i < 32) && !m.testBit i)) := by
  unfold and_not_assign
  simp only [Nat.testBit_and, Nat.testBit_xor, Nat.testBit_two_pow_sub_one,
    Nat.testBit_mod_two_pow]
  cases x.testBit i <;> cases m.testBit i <;> cases decide (i < 32) <;> rfl

theorem testBit_or_assign (x m i : Nat) :
    (or_assign x m).testBit i = (decide (i < 32) && (x.testBit i || m.testBit i)) := by
  unfold or_assign
  simp only [Nat.testBit_or, Nat.testBit_mod_two_pow]

/-- Bit `i` after `x &= ~a; x |= b;`. -/
theorem testBit_set_pattern (x a b i : Nat) :
    (or_assign (and_not_assign x a) b).testBit i =
      (decide (i < 32) && ((x.testBit i && !a.testBit i) || b.testBit i)) := by
  rw [testBit_or_assign, testBit_and_not_assign]
  cases x.testBit i <;> cases a.testBit i <;> cases b.testBit i <;>
    cases decide (i < 32) <;> rfl

theorem testBit_of_lt_32 {m i : Nat} (hm : m < 2 ^ 32) (hi : m.testBit i = true) :
    decide (i < 32) = true := by
  have h := Nat.testBit_mod_two_pow m 32 i
  rw [Nat.mod_eq_of_lt hm, hi] at h
  cases hd : decide (i < 32)
  · rw [hd] at h; simp at h
  · rfl

theorem testBit_disjoint {a b : Nat} (hab : a &&& b = 0) (i : Nat) :
    (a.testBit i && b.testBit i) = false := by
  rw [← Nat.testBit_and, hab, Nat.zero_testBit]

theorem set_pattern_bitsSet (x a b : Nat) (hb : b < 2 ^ 32) :
    bitsSet (or_assign (and_not_assign x a) b) b := by
  unfold bitsSet
  apply Nat.eq_of_testBit_eq
  intro i
  rw [Nat.testBit_and, testBit_set_pattern]
  cases hbi : b.testBit i
  · simp
  · rw [testBit_of_lt_32 hb hbi]; simp

theorem set_pattern_bitsClear (x a b : Nat) (hab : a &&& b = 0) :
    bitsClear (or_assign (and_not_assign x a) b) a := by
  unfold bitsClear
  apply Nat.eq_of_testBit_eq
  intro i
  rw [Nat.testBit_and, testBit_set_pattern, Nat.zero_testBit]
  have h := testBit_disjoint hab i
  revert h
  cases x.testBit i <;> cases a.testBit i <;> cases b.testBit i <;>
    cases decide (i < 32) <;> simp

theorem set_pattern_idem (x a b : Nat) :
    or_assign (and_not_assign (or_assign (and_not_assign x a) b) a) b =
      or_assign (and_not_assign x a) b := by
  apply Nat.eq_of_testBit_eq
  intro i
  simp only [testBit_set_pattern]
  cases x.testBit i <;> cases a.testBit i <;> cases b.testBit i <;>
    cases decide (i < 32) <;> rfl

theorem set_pattern_fixed (x a b : Nat) (hx : x < 2 ^ 32) (hb : bitsSet x b)
    (ha : bitsClear x a) : or_assign (and_not_assign x a) b = x := by
  unfold bitsSet at hb
  unfold bitsClear at ha
  apply Nat.eq_of_testBit_eq
  intro i
  rw [testBit_set_pattern]
  have h1 : (x.testBit i && b.testBit i) = b.testBit i := by rw [← Nat.testBit_and, hb]
  have h2 : (x.testBit i && a.testBit i) = false := by
    rw [← Nat.testBit_and, ha, Nat.zero_testBit]
  cases hxi : x.testBit i
  · rw [hxi] at h1 h2
    revert h1 h2
    cases a.testBit i <;> cases b.testBit i <;> cases decide (i < 32) <;> simp
  · rw [hxi] at h1 h2
    rw [testBit_of_lt_32 hx hxi]
    revert h1 h2
    cases a.testBit i <;> cases b.testBit i <;> simp

theorem set_pattern_lt (x a b : Nat) : or_assign (and_not_assign x a) b < 2 ^ 32 := by
  unfold or_assign
  exact Nat.mod_lt _ (by norm_num)

/-- Outside the two masks, and for a 32-bit value, `x &= ~a; x |= b;` changes
no bit. -/
theorem set_pattern_frame (x a b i : Nat) (hx : x < 2 ^ 32)
    (hi : (a ||| b).testBit i = false) :
    (or_assign (and_not_assign x a) b).testBit i = x.testBit i := by
  rw [testBit_set_pattern]
  rw [Nat.testBit_or] at hi
  cases hxi : x.testBit i
  · revert hi
    cases a.testBit i <;> cases b.testBit i <;> cases decide (i < 32) <;> simp
  · rw [testBit_of_lt_32 hx hxi]
    revert hi
    cases a.testBit i <;> cases b.testBit i <;> simp

/-! ## Facts about the patterns -/

theorem not_advertising_of_connected (h : Headers) (hm : MasksOk h) (v : Nat)
    (hc : ShowsConnected h v) : ¬ ShowsAdvertising h v := by
  intro ha
  have h2 : v &&& h.BOARD_LED2_LIGHT = h.BOARD_LED2_LIGHT := hc.1
  have h0 : v &&& h.BOARD_LED2_LIGHT = 0 := ha.2
  exact hm.2.2.1 (h2.symm.trans h0)

theorem not_connected_of_advertising (h : Headers) (hm : MasksOk h) (v : Nat)
    (ha : ShowsAdvertising h v) : ¬ ShowsConnected h v :=
  fun hc => not_advertising_of_connected h hm v hc ha

/-- After `x &= ~LED3; x |= LED2;` the Connected pattern is shown. -/
theorem connected_after_update (h : Headers) (hm : MasksOk h) (x : Nat) :
    ShowsConnected h
      (or_assign (and_not_assign x h.BOARD_LED3_LIGHT) h.BOARD_LED2_LIGHT) := by
  refine ⟨set_pattern_bitsSet _ _ _ hm.1, set_pattern_bitsClear _ _ _ ?_⟩
  rw [Nat.land_comm]
  exact hm.2.2.2.2

/-- After `x &= ~LED2; x |= LED3;` the Advertising pattern is shown. -/
theorem advertising_after_update (h : Headers) (hm : MasksOk h) (x : Nat) :
    ShowsAdvertising h
      (or_assign (and_not_assign x h.BOARD_LED2_LIGHT) h.BOARD_LED3_LIGHT) :=
  ⟨set_pattern_bitsSet _ _ _ hm.2.1, set_pattern_bitsClear _ _ _ hm.2.2.2.2⟩

/-! ## Facts about the handler and about runs -/

theorem run_append {σ : Type} (h : Headers) (sub : ble_gap_event → σ → σ)
    (l₁ l₂ : List (ble_gap_event × HostReply)) (s : State σ) :
    run h sub (l₁ ++ l₂) s =
      ((run h sub l₂ (run h sub l₁ s).1).1,
        (run h sub l₁ s).2 ++ (run h sub l₂ (run h sub l₁ s).1).2) := by
  induction l₁ generalizing s with
  | nil => simp [run]
  | cons p rest ih =>
    obtain ⟨e, r⟩ := p
    simp [run, ih]

/-- An event that is neither connect nor disconnect leaves `led_status` as it
is. -/
theorem led_status_of_not_changesIndicator {σ : Type} (h : Headers)
    (sub : ble_gap_event → σ → σ) (r : HostReply) (e : ble_gap_event) (s : State σ)
    (he : changesIndicator e = false) :
    (user_ble_gap_event h sub r e s).state.led_status = s.led_status := by
  cases e <;> simp [changesIndicator] at he <;> rfl

/-- A connect or disconnect event leaves exactly one pattern shown. -/
theorem exactlyOne_of_changesIndicator {σ : Type} (h : Headers) (hm : MasksOk h)
    (sub : ble_gap_event → σ → σ) (r : HostReply) (e : ble_gap_event) (s : State σ)
    (he : changesIndicator e = true) :
    ExactlyOnePattern h (user_ble_gap_event h sub r e s).state.led_status := by
  cases e with
  | connect status conn_handle =>
    have hc := connected_after_update h hm s.led_status
    exact Or.inl ⟨hc, not_advertising_of_connected h hm _ hc⟩
  | disconnect reason =>
    have ha := advertising_after_update h hm s.led_status
    exact Or.inr ⟨ha, not_connected_of_advertising h hm _ ha⟩
  | adv_complete => simp [changesIndicator] at he
  | subscribe p => simp [changesIndicator] at he
  | other t => simp [changesIndicator] at he

/-- The sync callback does not store to `led_status`. -/
theorem led_status_user_ble_sync_callback {σ : Type} (h : Headers) (rc : Int)
    (addr : Nat) (r : HostReply) (s : State σ) :
    (user_ble_sync_callback h rc addr r s).state.led_status = s.led_status := by
  unfold user_ble_sync_callback
  by_cases hc : rc ≠ 0 ∧ h.NDEBUG = false
  · rw [if_pos hc]
  · rw [if_neg hc]

/-- Exactly one pattern is shown after a run that starts with exactly one
pattern shown or holds a connect or disconnect event. -/
theorem exactlyOne_after_run {σ : Type} (h : Headers)
    (sub : ble_gap_event → σ → σ) (evs : List (ble_gap_event × HostReply))
    (s : State σ) (hm : MasksOk h)
    (h0 : ExactlyOnePattern h s.led_status ∨ ∃ p ∈ evs, changesIndicator p.1 = true) :
    ExactlyOnePattern h (run h sub evs s).1.led_status := by
  induction evs generalizing s with
  | nil =>
    rcases h0 with h0 | ⟨p, hp, _⟩
    · exact h0
    · simp at hp
  | cons p rest ih =>
    obtain ⟨e, r⟩ := p
    show ExactlyOnePattern h (run h sub rest (user_ble_gap_event h sub r e s).state).1.led_status
    apply ih
    cases he : changesIndicator e
    · rw [led_status_of_not_changesIndicator h sub r e s he]
      rcases h0 with h0 | ⟨q, hq, hq2⟩
      · exact Or.inl h0
      · rcases List.mem_cons.mp hq with rfl | hq
        · rw [he] at hq2
          exact absurd hq2 (by decide)
        · exact Or.inr ⟨q, hq, hq2⟩
    · exact Or.inl (exactlyOne_of_changesIndicator h hm sub r e s he)

theorem not_both_of_exactlyOne (h : Headers) (hm : MasksOk h) (v : Nat)
    (h1 : ExactlyOnePattern h v) :
    ¬ (bitsSet v h.BOARD_LED2_LIGHT ∧ bitsSet v h.BOARD_LED3_LIGHT) := by
  rintro ⟨h2, h3⟩
  rcases h1 with ⟨hc, _⟩ | ⟨ha, _⟩
  · exact hm.2.2.2.1 (Eq.trans (Eq.symm h3) hc.2)
  · exact hm.2.2.1 (Eq.trans (Eq.symm h2) ha.2)

theorem not_neither_of_exactlyOne (h : Headers) (hm : MasksOk h) (v : Nat)
    (h1 : ExactlyOnePattern h v) :
    ¬ (bitsClear v h.BOARD_LED2_LIGHT ∧ bitsClear v h.BOARD_LED3_LIGHT) := by
  rintro ⟨h2, h3⟩
  rcases h1 with ⟨hc, _⟩ | ⟨ha, _⟩
  · exact hm.2.2.1 (Eq.trans (Eq.symm hc.1) h2)
  · exact hm.2.2.2.1 (Eq.trans (Eq.symm ha.1) h3)

/-! ## C1: connect event with a failure status -/

/-- C1, the code at a connect event with a failure status: one advertise-start
command is issued, and afterwards `led_status` shows the Connected pattern
(LED2 set, LED3 clear), not the Advertising pattern; a disconnect event from
the same prior `led_status` gives a different value. -/
theorem connect_failure_shows_connected {σ : Type} (h : Headers)
    (sub : ble_gap_event → σ → σ) (r : HostReply) (status : Int) (conn_handle : Nat)
    (reason : Int) (s : State σ) (hm : MasksOk h) (hs : status ≠ 0) :
    advStartCount
        (user_ble_gap_event h sub r (ble_gap_event.connect status conn_handle) s).effects
        = 1 ∧
    ShowsConnected h
      (user_ble_gap_event h sub r (ble_gap_event.connect status conn_handle) s).state.led_status ∧
    ¬ ShowsAdvertising h
      (user_ble_gap_event h sub r (ble_gap_event.connect status conn_handle) s).state.led_status ∧
    (user_ble_gap_event h sub r (ble_gap_event.connect status conn_handle) s).state.led_status ≠
      (user_ble_gap_event h sub r (ble_gap_event.disconnect reason) s).state.led_status := by
  have hc := connected_after_update h hm s.led_status
  have ha := advertising_after_update h hm s.led_status
  refine ⟨?_, hc, not_advertising_of_connected h hm _ hc, ?_⟩
  · simp [user_ble_gap_event, hs, advStartCount, user_advertise_init, isAdvStart]
  · intro heq
    have heq2 : or_assign (and_not_assign s.led_status h.BOARD_LED3_LIGHT) h.BOARD_LED2_LIGHT =
        or_assign (and_not_assign s.led_status h.BOARD_LED2_LIGHT) h.BOARD_LED3_LIGHT := heq
    rw [heq2] at hc
    exact not_advertising_of_connected h hm _ hc ha

/-- C1 at a concrete input: status 1 while the Advertising pattern (value 4)
is shown leaves the value 2, the Connected pattern. -/
theorem connect_failure_shows_connected_witness :
    MasksOk sampleHeaders ∧ (1 : Int) ≠ 0 ∧
    (user_ble_gap_event sampleHeaders hr_service_subscribe_handler okReply
      (ble_gap_event.connect 1 0) (bootState 4)).state.led_status = 2 ∧
    ShowsConnected sampleHeaders
      (user_ble_gap_event sampleHeaders hr_service_subscribe_handler okReply
        (ble_gap_event.connect 1 0) (bootState 4)).state.led_status :=
  ⟨by decide, by decide, by decide,
    (connect_failure_shows_connected sampleHeaders hr_service_subscribe_handler okReply
      1 0 19 (bootState 4) (by decide) (by decide)).2.1⟩

/-! ## C2: disconnect event -/

/-- C2: a disconnect event, whatever its reason, issues one advertise-start
command and after it stores the Advertising pattern to `led_status` (LED3 set,
LED2 clear); the resulting variables and the effects other than the log line
do not depend on the reason. -/
theorem disconnect_restarts_then_shows_advertising {σ : Type} (h : Headers)
    (sub : ble_gap_event → σ → σ) (r : HostReply) (reason : Int) (s : State σ)
    (hm : MasksOk h) :
    withoutLog (user_ble_gap_event h sub r (ble_gap_event.disconnect reason) s).effects =
      [ Effect.ble_gap_adv_set_fields (adv_fields h) r.adv_set_fields_rc,
        Effect.ble_gap_adv_start s.ble_addr_type h.BLE_HS_FOREVER (adv_params h)
          r.adv_start_rc,
        Effect.nrf_gpio_pin_set h.LED_2,
        Effect.led_status_write (and_not_assign s.led_status h.BOARD_LED2_LIGHT),
        Effect.led_status_write
          (or_assign (and_not_assign s.led_status h.BOARD_LED2_LIGHT) h.BOARD_LED3_LIGHT) ] ∧
    advStartCount (user_ble_gap_event h sub r (ble_gap_event.disconnect reason) s).effects = 1 ∧
    (user_ble_gap_event h sub r (ble_gap_event.disconnect reason) s).state.led_status =
      or_assign (and_not_assign s.led_status h.BOARD_LED2_LIGHT) h.BOARD_LED3_LIGHT ∧
    ShowsAdvertising h
      (user_ble_gap_event h sub r (ble_gap_event.disconnect reason) s).state.led_status ∧
    ∀ reason2 : Int,
      (user_ble_gap_event h sub r (ble_gap_event.disconnect reason2) s).state =
        (user_ble_gap_event h sub r (ble_gap_event.disconnect reason) s).state ∧
      withoutLog (user_ble_gap_event h sub r (ble_gap_event.disconnect reason2) s).effects =
        withoutLog (user_ble_gap_event h sub r (ble_gap_event.disconnect reason) s).effects := by
  refine ⟨rfl, rfl, rfl, advertising_after_update h hm s.led_status, ?_⟩
  intro reason2
  exact ⟨rfl, rfl⟩

/-- C2 at a concrete input: reason 19 while the Connected pattern (value 2) is
shown. -/
theorem disconnect_restarts_then_shows_advertising_witness :
    MasksOk sampleHeaders ∧
    advStartCount (user_ble_gap_event sampleHeaders hr_service_subscribe_handler okReply
      (ble_gap_event.disconnect 19) (bootState 2)).effects = 1 ∧
    ShowsAdvertising sampleHeaders
      (user_ble_gap_event sampleHeaders hr_service_subscribe_handler okReply
        (ble_gap_event.disconnect 19) (bootState 2)).state.led_status :=
  ⟨by decide,
    (disconnect_restarts_then_shows_advertising sampleHeaders hr_service_subscribe_handler
      okReply 19 (bootState 2) (by decide)).2.1,
    (disconnect_restarts_then_shows_advertising sampleHeaders hr_service_subscribe_handler
      okReply 19 (bootState 2) (by decide)).2.2.2.1⟩

/-! ## C3: the subscription flag at a disconnect event -/

/-- C3 fails: after connect, subscribe (notifications on), disconnect with
reason 19, the subscription flag is still on; and a disconnect event handled
with the flag on makes no call of the subscription handler and leaves it on. -/
theorem disconnect_leaves_subscription_on :
    (run sampleHeaders hr_service_subscribe_handler
      [ (ble_gap_event.connect 0 7, okReply),
        (ble_gap_event.subscribe
          { conn_handle := 7, attr_handle := 3, reason := 1, prev_notify := false,
            cur_notify := true, prev_indicate := false, cur_indicate := false }, okReply),
        (ble_gap_event.disconnect 19, okReply) ]
      (bootState 4)).1.hr = true ∧
    (user_ble_gap_event sampleHeaders hr_service_subscribe_handler okReply
      (ble_gap_event.disconnect 19)
      { led_status := 2, ble_addr_type := 0, hr := true }).state.hr = true ∧
    subscribeCallCount
      (user_ble_gap_event sampleHeaders hr_service_subscribe_handler okReply
        (ble_gap_event.disconnect 19)
        { led_status := 2, ble_addr_type := 0, hr := true }).effects = 0 := by
  decide

/-- C3 as amended: handling a disconnect event makes no call of the
subscription handler and leaves the state of the heart-rate service (the
subscription flag) as it was, so after a sequence ending in a disconnect event
the flag has the value it had before that last event. Only a subscribe event
changes it: for every event, the subscription handler is called once if the
event is a subscribe event and not at all otherwise, and the state of the
heart-rate service afterwards is what the subscription handler returns for a
subscribe event and the state before for every other event. -/
theorem subscription_changes_only_at_subscribe {σ : Type} (h : Headers)
    (sub : ble_gap_event → σ → σ) (r : HostReply) (reason : Int) (s : State σ)
    (evs : List (ble_gap_event × HostReply)) (e : ble_gap_event) :
    (user_ble_gap_event h sub r (ble_gap_event.disconnect reason) s).state.hr = s.hr ∧
    subscribeCallCount
      (user_ble_gap_event h sub r (ble_gap_event.disconnect reason) s).effects = 0 ∧
    (run h sub (evs ++ [(ble_gap_event.disconnect reason, r)]) s).1.hr =
      (run h sub evs s).1.hr ∧
    (user_ble_gap_event h sub r e s).state.hr =
      (if isSubscribe e = true then sub e s.hr else s.hr) ∧
    subscribeCallCount (user_ble_gap_event h sub r e s).effects =
      (if isSubscribe e = true then 1 else 0) ∧
    (user_ble_gap_event h sub r e s).effects.filter isSubscribeCall =
      (if isSubscribe e = true then [Effect.hr_service_subscribe_handler e] else []) := by
  refine ⟨rfl, rfl, ?_, ?_, ?_, ?_⟩
  · rw [run_append]
    rfl
  · cases e with
    | connect status conn_handle => rfl
    | disconnect reason2 => rfl
    | adv_complete => rfl
    | subscribe p => rfl
    | other t => rfl
  · cases e with
    | connect status conn_handle =>
      by_cases h0 : status = 0 <;>
        simp [user_ble_gap_event, h0, subscribeCallCount, user_advertise_init,
          isSubscribeCall, isSubscribe]
    | disconnect reason2 => rfl
    | adv_complete => rfl
    | subscribe p => rfl
    | other t => rfl
  · cases e with
    | connect status conn_handle =>
      by_cases h0 : status = 0 <;>
        simp [user_ble_gap_event, h0, user_advertise_init, isSubscribeCall, isSubscribe]
    | disconnect reason2 => rfl
    | adv_complete => rfl
    | subscribe p => rfl
    | other t => rfl

/-! ## C4: exactly one indicator pattern -/

/-- C5: for a connect event with a failure status, a disconnect event and an
advertising-complete event, in every state and for every pair of return codes
of the host stack, the handler issues exactly one advertise-start command, the
one of `user_advertise_init`, which issues exactly one. -/
theorem resume_events_start_advertising_once {σ : Type} (h : Headers)
    (sub : ble_gap_event → σ → σ) (r : HostReply) (e : ble_gap_event) (s : State σ)
    (he : resumesAdvertising e = true) :
    (user_ble_gap_event h sub r e s).effects.filter isAdvStart =
      [Effect.ble_gap_adv_start s.ble_addr_type h.BLE_HS_FOREVER (adv_params h)
        r.adv_start_rc] ∧
    advStartCount (user_ble_gap_event h sub r e s).effects = 1 ∧
    advStartCount (user_advertise_init h r s) = 1 := by
  cases e with
  | connect status conn_handle =>
    have hs : status ≠ 0 := by simpa [resumesAdvertising] using he
    refine ⟨?_, ?_, rfl⟩ <;>
      simp [user_ble_gap_event, hs, advStartCount, user_advertise_init, isAdvStart]
  | disconnect reason => exact ⟨rfl, rfl, rfl⟩
  | adv_complete => exact ⟨rfl, rfl, rfl⟩
  | subscribe p => simp [resumesAdvertising] at he
  | other t => simp [resumesAdvertising] at he

/-- C5 at a concrete input: a connect event with status 13 when the host stack
rejects the advertise-start command with code 15. -/
theorem resume_events_start_advertising_once_witness :
    resumesAdvertising (ble_gap_event.connect 13 0) = true ∧
    advStartCount
      (user_ble_gap_event sampleHeaders hr_service_subscribe_handler
        { adv_set_fields_rc := 0, adv_start_rc := 15 }
        (ble_gap_event.connect 13 0) (bootState 4)).effects = 1 :=
  ⟨by decide,
    (resume_events_start_advertising_once sampleHeaders hr_service_subscribe_handler
      { adv_set_fields_rc := 0, adv_start_rc := 15 }
      (ble_gap_event.connect 13 0) (bootState 4) (by decide)).2.1⟩

/-! ## C6: connect event with success status -/

/-- C6: a connect event with status 0 and any connection handle, in every
state (so also while Advertising), issues no advertise-start command; its
effects other than the log line are the pin write and the two stores that set
the Connected pattern; afterwards LED2 is set and LED3 is clear; the
subscription handler is not called and the state of the heart-rate service is
unchanged. -/
theorem connect_success_sets_connected {σ : Type} (h : Headers)
    (sub : ble_gap_event → σ → σ) (r : HostReply) (conn_handle : Nat) (s : State σ)
    (hm : MasksOk h) :
    advStartCount
      (user_ble_gap_event h sub r (ble_gap_event.connect 0 conn_handle) s).effects = 0 ∧
    withoutLog (user_ble_gap_event h sub r (ble_gap_event.connect 0 conn_handle) s).effects =
      [ Effect.nrf_gpio_pin_set h.LED_3,
        Effect.led_status_write (and_not_assign s.led_status h.BOARD_LED3_LIGHT),
        Effect.led_status_write
          (or_assign (and_not_assign s.led_status h.BOARD_LED3_LIGHT) h.BOARD_LED2_LIGHT) ] ∧
    ShowsConnected h
      (user_ble_gap_event h sub r (ble_gap_event.connect 0 conn_handle) s).state.led_status ∧
    ¬ ShowsAdvertising h
      (user_ble_gap_event h sub r (ble_gap_event.connect 0 conn_handle) s).state.led_status ∧
    subscribeCallCount
      (user_ble_gap_event h sub r (ble_gap_event.connect 0 conn_handle) s).effects = 0 ∧
    (user_ble_gap_event h sub r (ble_gap_event.connect 0 conn_handle) s).state.hr = s.hr := by
  have hc := connected_after_update h hm s.led_status
  exact ⟨rfl, rfl, hc, not_advertising_of_connected h hm _ hc, rfl, rfl⟩

/-- C6 at a concrete input: handle 7 while the Advertising pattern (value 4) is
shown. -/
theorem connect_success_sets_connected_witness :
    MasksOk sampleHeaders ∧
    ShowsAdvertising sampleHeaders (bootState 4).led_status ∧
    advStartCount
      (user_ble_gap_event sampleHeaders hr_service_subscribe_handler okReply
        (ble_gap_event.connect 0 7) (bootState 4)).effects = 0 ∧
    ShowsConnected sampleHeaders
      (user_ble_gap_event sampleHeaders hr_service_subscribe_handler okReply
        (ble_gap_event.connect 0 7) (bootState 4)).state.led_status :=
  ⟨by decide, by decide,
    (connect_success_sets_connected sampleHeaders hr_service_subscribe_handler okReply 7
      (bootState 4) (by decide)).1,
    (connect_success_sets_connected sampleHeaders hr_service_subscribe_handler okReply 7
      (bootState 4) (by decide)).2.2.1⟩

/-! ## C7: connect event while Connected -/

/-- C7 fails: in the state reached from boot by a successful connect event (the
Connected pattern is shown), a connect event with status 1 issues an
advertise-start command. -/
theorem connect_failure_while_connected_restarts :
    ShowsConnected sampleHeaders
      (run sampleHeaders hr_service_subscribe_handler
        [(ble_gap_event.connect 0 7, okReply)] (bootState 4)).1.led_status ∧
    advStartCount
      (user_ble_gap_event sampleHeaders hr_service_subscribe_handler okReply
        (ble_gap_event.connect 1 8)
        (run sampleHeaders hr_service_subscribe_handler
          [(ble_gap_event.connect 0 7, okReply)] (bootState 4)).1).effects = 1 := by
  decide

/-- C7 as amended: while the Connected pattern is shown, a connect event of
either outcome leaves every variable (`led_status`, the subscription state,
`ble_addr_type`) unchanged and does not call the subscription handler; with
status 0 it issues no advertise-start command, with any other status it issues
exactly one. -/
theorem connect_while_connected {σ : Type} (h : Headers)
    (sub : ble_gap_event → σ → σ) (r : HostReply) (status : Int) (conn_handle : Nat)
    (s : State σ) (hs : s.led_status < 2 ^ 32) (hc : ShowsConnected h s.led_status) :
    (user_ble_gap_event h sub r (ble_gap_event.connect status conn_handle) s).state = s ∧
    subscribeCallCount
      (user_ble_gap_event h sub r (ble_gap_event.connect status conn_handle) s).effects = 0 ∧
    advStartCount
      (user_ble_gap_event h sub r (ble_gap_event.connect status conn_handle) s).effects =
      (if status = 0 then 0 else 1) := by
  have hfix := set_pattern_fixed s.led_status h.BOARD_LED3_LIGHT h.BOARD_LED2_LIGHT hs
    hc.1 hc.2
  refine ⟨?_, ?_, ?_⟩
  · cases s with
    | mk led addr hr =>
      simp only [user_ble_gap_event]
      simp only at hfix
      rw [hfix]
  · by_cases h0 : status = 0 <;>
      simp [user_ble_gap_event, h0, subscribeCallCount, user_advertise_init, isSubscribeCall]
  · by_cases h0 : status = 0 <;>
      simp [user_ble_gap_event, h0, advStartCount, user_advertise_init, isAdvStart]

/-- C7 as amended, at a concrete input: status 1 in the state with
`led_status` 2 (the Connected pattern) and the subscription flag on. -/
theorem connect_while_connected_witness :
    (2 : Nat) < 2 ^ 32 ∧ ShowsConnected sampleHeaders 2 ∧
    (user_ble_gap_event sampleHeaders hr_service_subscribe_handler okReply
      (ble_gap_event.connect 1 8)
      { led_status := 2, ble_addr_type := 1, hr := true }).state =
      { led_status := 2, ble_addr_type := 1, hr := true } :=
  ⟨by decide, by decide,
    (connect_while_connected sampleHeaders hr_service_subscribe_handler okReply 1 8
      { led_status := 2, ble_addr_type := 1, hr := true } (by decide) (by decide)).1⟩

/-! ## C8: events of other types -/

/-- C8: for an event whose type is none of connect, disconnect,
advertising-complete and subscribe the handler returns 0, has no effect at all
(no advertise-start command, no call of the subscription handler, no store to
`led_status`) and changes no variable; and for every event it returns 0. -/
theorem other_event_is_noop {σ : Type} (h : Headers) (sub : ble_gap_event → σ → σ)
    (r : HostReply) (s : State σ) :
    (∀ type : Nat,
      (user_ble_gap_event h sub r (ble_gap_event.other type) s).ret = 0 ∧
      (user_ble_gap_event h sub r (ble_gap_event.other type) s).effects = [] ∧
      advStartCount (user_ble_gap_event h sub r (ble_gap_event.other type) s).effects = 0 ∧
      subscribeCallCount
        (user_ble_gap_event h sub r (ble_gap_event.other type) s).effects = 0 ∧
      (user_ble_gap_event h sub r (ble_gap_event.other type) s).state = s) ∧
    ∀ e : ble_gap_event, (user_ble_gap_event h sub r e s).ret = 0 := by
  refine ⟨fun type => ⟨rfl, rfl, rfl, rfl, rfl⟩, ?_⟩
  intro e
  cases e <;> rfl

/-! ## C9: errors of host-stack calls -/

/-- C9 fails: with assertions compiled in, when `ble_hs_id_infer_auto` returns
1 the sync callback stops at the failed assertion and issues no advertise-start
command. -/
theorem sync_aborts_on_infer_failure :
    sampleHeaders.NDEBUG = false ∧
    (user_ble_sync_callback sampleHeaders 1 0 okReply (bootState 4)).aborted = true ∧
    (user_ble_sync_callback sampleHeaders 1 0 okReply (bootState 4)).effects =
      [Effect.ble_hs_id_infer_auto 0 1, Effect.assert_failed] ∧
    advStartCount
      (user_ble_sync_callback sampleHeaders 1 0 okReply (bootState 4)).effects = 0 := by
  decide

/-- C9 as amended: the sync callback stops at its assertion exactly when
`ble_hs_id_infer_auto` returns a non-zero code and assertions are compiled in,
and then issues no advertise-start command; otherwise it returns after issuing
exactly one. For every pair of return codes of the two calls made by
`user_advertise_init`, the event handler returns 0, and the variables after it
are the same as for any other pair of return codes. -/
theorem sync_aborts_iff_and_adv_errors_ignored {σ : Type} (h : Headers)
    (sub : ble_gap_event → σ → σ) (rc : Int) (addr : Nat) (r r2 : HostReply)
    (e : ble_gap_event) (s : State σ) :
    (user_ble_sync_callback h rc addr r s).aborted = (decide (rc ≠ 0) && !h.NDEBUG) ∧
    advStartCount (user_ble_sync_callback h rc addr r s).effects =
      (if (user_ble_sync_callback h rc addr r s).aborted = true then 0 else 1) ∧
    advStartCount (user_advertise_init h r s) = 1 ∧
    (user_ble_gap_event h sub r e s).ret = 0 ∧
    (user_ble_gap_event h sub r e s).state = (user_ble_gap_event h sub r2 e s).state := by
  refine ⟨?_, ?_, rfl, ?_, ?_⟩
  · unfold user_ble_sync_callback
    by_cases h0 : rc = 0 <;> cases hn : h.NDEBUG <;> simp [h0]
  · unfold user_ble_sync_callback
    by_cases h0 : rc = 0 <;> cases hn : h.NDEBUG <;>
      simp [h0, advStartCount, user_advertise_init, isAdvStart]
  · cases e <;> rfl
  · cases e <;> rfl

/-! ## C10: the indicator update, bit by bit -/

/-- C10: for a 32-bit `led_status`, after a connect event bit `i` of
`led_status` is bit `i` of `(old & ~LED3) | LED2` in 32-bit arithmetic, after a
disconnect event that of `(old & ~LED2) | LED3`; advertising-complete,
subscribe and other events leave `led_status` as it is; every event leaves
every bit outside `LED2 | LED3` as it is and `led_status` a 32-bit value; and
handling the same event again leaves `led_status` as the first handling left
it. -/
theorem indicator_update_frame {σ : Type} (h : Headers) (sub : ble_gap_event → σ → σ)
    (r : HostReply) (s : State σ) (hs : s.led_status < 2 ^ 32) :
    (∀ (status : Int) (conn_handle i : Nat),
      (user_ble_gap_event h sub r (ble_gap_event.connect status conn_handle) s
        ).state.led_status.testBit i =
      (decide (i < 32) &&
        ((s.led_status.testBit i && !h.BOARD_LED3_LIGHT.testBit i) ||
          h.BOARD_LED2_LIGHT.testBit i))) ∧
    (∀ (reason : Int) (i : Nat),
      (user_ble_gap_event h sub r (ble_gap_event.disconnect reason) s
        ).state.led_status.testBit i =
      (decide (i < 32) &&
        ((s.led_status.testBit i && !h.BOARD_LED2_LIGHT.testBit i) ||
          h.BOARD_LED3_LIGHT.testBit i))) ∧
    (user_ble_gap_event h sub r ble_gap_event.adv_complete s).state.led_status =
      s.led_status ∧
    (∀ p : ble_gap_subscribe,
      (user_ble_gap_event h sub r (ble_gap_event.subscribe p) s).state.led_status =
        s.led_status) ∧
    (∀ (e : ble_gap_event) (i : Nat),
      (h.BOARD_LED2_LIGHT ||| h.BOARD_LED3_LIGHT).testBit i = false →
      (user_ble_gap_event h sub r e s).state.led_status.testBit i =
        s.led_status.testBit i) ∧
    (∀ e : ble_gap_event, (user_ble_gap_event h sub r e s).state.led_status < 2 ^ 32) ∧
    (∀ e : ble_gap_event,
      (user_ble_gap_event h sub r e (user_ble_gap_event h sub r e s).state).state.led_status =
        (user_ble_gap_event h sub r e s).state.led_status) := by
  refine ⟨?_, ?_, rfl, fun _ => rfl, ?_, ?_, ?_⟩
  · intro status conn_handle i
    exact testBit_set_pattern _ _ _ i
  · intro reason i
    exact testBit_set_pattern _ _ _ i
  · intro e i hi
    cases e with
    | connect status conn_handle =>
      rw [Nat.lor_comm] at hi
      exact set_pattern_frame _ _ _ i hs hi
    | disconnect reason => exact set_pattern_frame _ _ _ i hs hi
    | adv_complete => rfl
    | subscribe p => rfl
    | other t => rfl
  · intro e
    cases e with
    | connect status conn_handle => exact set_pattern_lt _ _ _
    | disconnect reason => exact set_pattern_lt _ _ _
    | adv_complete => exact hs
    | subscribe p => exact hs
    | other t => exact hs
  · intro e
    cases e with
    | connect status conn_handle => exact set_pattern_idem _ _ _
    | disconnect reason => exact set_pattern_idem _ _ _
    | adv_complete => rfl
    | subscribe p => rfl
    | other t => rfl

/-- C10 at a concrete input: `led_status` 0x80000005 has LED3 and two other
bits set; after a connect event the other bits are still set and the value is
0x80000003, also when the event is handled again. -/
theorem indicator_update_frame_witness :
    (2147483653 : Nat) < 2 ^ 32 ∧
    (user_ble_gap_event sampleHeaders hr_service_subscribe_handler okReply
      (ble_gap_event.connect 0 7) (bootState 2147483653)).state.led_status = 2147483651 ∧
    (user_ble_gap_event sampleHeaders hr_service_subscribe_handler okReply
      (ble_gap_event.connect 0 7)
      (user_ble_gap_event sampleHeaders hr_service_subscribe_handler okReply
        (ble_gap_event.connect 0 7) (bootState 2147483653)).state).state.led_status =
    (user_ble_gap_event sampleHeaders hr_service_subscribe_handler okReply
      (ble_gap_event.connect 0 7) (bootState 2147483653)).state.led_status :=
  ⟨by decide, by decide,
    (indicator_update_frame sampleHeaders hr_service_subscribe_handler okReply
      (bootState 2147483653) (by decide)).2.2.2.2.2.2 (ble_gap_event.connect 0 7)⟩

end HrSensor
